import Mathlib

/-!
Verification of the release-resolution and update logic of the
`update-dotnet-sdk` action (sources `src/DotNetSdkUpdater.ts`, `src/main.ts`).

The TypeScript is shallowly embedded: the release-feed JSON shapes become
structures, the static functions `getReleaseForSdk`, `getLatestRelease` and
`generateCommitMessage` become pure Lean functions, and the effectful
orchestration (`tryUpdateSdk` / `applySdkUpdate` / `createPullRequest`) is
modelled by explicit state passing over an environment describing the git
remote, producing the list of external effects the run performs.
Thrown JavaScript errors are modelled with `Except String`.
-/

set_option maxHeartbeats 1000000
set_option maxRecDepth 8000

deriving instance DecidableEq for Except

namespace UpdateSdk

/-- An entry of a release's `cve-list` in the feed (`cve-id` / `cve-url`). -/
structure Cve where
  cveId : String
  cveUrl : String
  deriving DecidableEq

/-- Normalised advisory entry produced by `mapCves` (`id` / `url`). -/
structure CveInfo where
  id : String
  url : String
  deriving DecidableEq

/-- The `runtime` object of a release (only fields the code reads). -/
structure RuntimeDesc where
  version : String
  versionDisplay : String := ""
  deriving DecidableEq

/-- An SDK descriptor (`sdk` or an element of `sdks`). -/
structure Sdk where
  version : String
  versionDisplay : String := ""
  runtimeVersion : String := ""
  deriving DecidableEq

/-- One release entry of the channel's `releases.json`.  `cveList` and `sdks`
are `Option` because the JSON fields may be `null`/absent (the code guards
with `if (release['cve-list'])` and `info.sdks !== null`). -/
structure Release where
  releaseDate : String := ""
  releaseVersion : String := ""
  security : Bool
  cveList : Option (List Cve) := none
  releaseNotes : String := ""
  runtime : RuntimeDesc
  sdk : Sdk
  sdks : Option (List Sdk) := none
  deriving DecidableEq

/-- The channel document: the code reads `latest-sdk` and `releases`. -/
structure ReleaseChannel where
  channelVersion : String := ""
  latestRelease : String := ""
  latestSdk : String
  releases : List Release
  deriving DecidableEq

/-- The `ReleaseInfo` record built by `getReleaseForSdk`. -/
structure ReleaseInfo where
  releaseNotes : String
  runtimeVersion : String
  sdkVersion : String
  security : Bool
  securityIssues : List CveInfo
  deriving DecidableEq

/-- The `SdkVersions` record returned by `getLatestRelease`. -/
structure SdkVersions where
  current : ReleaseInfo
  latest : ReleaseInfo
  security : Bool
  securityIssues : List CveInfo
  deriving DecidableEq

/-- `mapCves`: normalise a `cve-list` (order preserving, no deduplication). -/
def mapCves (cves : List Cve) : List CveInfo :=
  cves.map (fun issue => { id := issue.cveId, url := issue.cveUrl })

/-- The releases whose primary SDK descriptor equals the requested version
(the first `filter` of `getReleaseForSdk`). -/
def primaryMatches (sdkVersion : String) (channel : ReleaseChannel) : List Release :=
  channel.releases.filter (fun info => info.sdk.version == sdkVersion)

/-- The inner `for` loop of the alternate-descriptor scan: first entry of a
`sdks` list whose version equals the target. -/
def findSdkInList (sdkVersion : String) : List Sdk → Option Sdk
  | [] => none
  | s :: rest => if s.version == sdkVersion then some s else findSdkInList sdkVersion rest

/-- The fallback `filter` of `getReleaseForSdk` together with the `foundSdk`
mutation it performs: returns the filtered releases and the final value of
`foundSdk` (the last matching release's first matching descriptor). -/
def altScan (sdkVersion : String) (releases : List Release) : List Release × Option Sdk :=
  releases.foldl
    (fun acc info =>
      match info.sdks with
      | some sdks =>
        match findSdkInList sdkVersion sdks with
        | some s => (acc.1 ++ [info], some s)
        | none => acc
      | none => acc)
    ([], none)

/-- Construction of the result record of `getReleaseForSdk` from the selected
release and the resolved descriptor (advisories only when security-flagged,
and only when `cve-list` is present). -/
def mkReleaseInfo (release : Release) (foundSdk : Sdk) : ReleaseInfo :=
  { releaseNotes := release.releaseNotes
    runtimeVersion := release.runtime.version
    sdkVersion := foundSdk.version
    security := release.security
    securityIssues :=
      if release.security then
        match release.cveList with
        | some issues => mapCves issues
        | none => []
      else [] }

/-- The error message thrown when no release resolves. -/
def notFoundMessage (sdkVersion : String) : String :=
  "Failed to find release for .NET SDK version " ++ sdkVersion

/-- `DotNetSdkUpdater.getReleaseForSdk`: primary-descriptor match when it is
unique, alternate-descriptor scan only when there is no primary match, error
otherwise (in particular when the primary match is ambiguous). -/
def getReleaseForSdk (sdkVersion : String) (channel : ReleaseChannel) :
    Except String ReleaseInfo :=
  let primary := primaryMatches sdkVersion channel
  let scanned : List Release × Option Sdk :=
    if primary.length = 1 then
      (primary, primary.head?.map (fun r => r.sdk))
    else if primary.length < 1 then
      altScan sdkVersion channel.releases
    else
      (primary, none)
  match scanned.1, scanned.2 with
  | release :: _, some foundSdk => .ok (mkReleaseInfo release foundSdk)
  | _, _ => .error (notFoundMessage sdkVersion)

/-! JavaScript string/number primitives used by the version logic.  They are
written over `List Char` by structural recursion so that concrete runs reduce
inside the kernel. -/

/-- JavaScript `String.prototype.split` with a one-character separator. -/
def splitChar (sep : Char) : List Char → List (List Char)
  | [] => [[]]
  | c :: cs =>
    let r := splitChar sep cs
    if c = sep then [] :: r
    else
      match r with
      | h :: t => (c :: h) :: t
      | [] => [[c]]

/-- `version.split('.')` of the TypeScript, as a list of strings. -/
def jsSplitDots (s : String) : List String :=
  (splitChar '.' s.data).map (fun cs => String.mk cs)

/-- `String.prototype.includes` with a one-character needle. -/
def containsChar (s : String) (c : Char) : Bool :=
  s.data.contains c

/-- `String.prototype.toLowerCase` (ASCII, which covers the version strings). -/
def jsToLower (s : String) : String :=
  String.mk (s.data.map Char.toLower)

def digitVal (c : Char) : Nat := c.toNat - 48

def parseDigitList (ds : List Char) : Nat :=
  ds.foldl (fun n c => 10 * n + digitVal c) 0

/-- JavaScript `parseInt(s, 10)`: skip leading spaces, optional sign, then the
maximal run of leading digits; `none` models `NaN` (no digit found). -/
def parseIntJs (s : String) : Option Int :=
  match s.data.dropWhile (fun c => c = ' ') with
  | '-' :: rest =>
    let ds := rest.takeWhile Char.isDigit
    if ds.isEmpty then none else some (-(parseDigitList ds : Int))
  | '+' :: rest =>
    let ds := rest.takeWhile Char.isDigit
    if ds.isEmpty then none else some ((parseDigitList ds : Int))
  | rest =>
    let ds := rest.takeWhile Char.isDigit
    if ds.isEmpty then none else some ((parseDigitList ds : Int))

/-- `parseInt(parts[i], 10)` with JavaScript indexing: an out-of-range index
yields `undefined`, and `parseInt(undefined, 10)` parses the string
`"undefined"`, i.e. `NaN`. -/
def parseAt (parts : List String) (i : Nat) : Option Int :=
  parseIntJs ((parts.get? i).getD "undefined")

/-- JavaScript `>` on two `parseInt` results; comparisons with `NaN` are false. -/
def jsGt : Option Int → Option Int → Bool
  | some a, some b => decide (b < a)
  | _, _ => false

/-- Template interpolation of a JavaScript number (`NaN` prints as "NaN"). -/
def numToString : Option Int → String
  | none => "NaN"
  | some n => toString n

/-! Sorting of the aggregate advisory list.  The TypeScript sorts with
`(a, b) => a.id.localeCompare(b.id)` through the engine's stable sort; this is
modelled by a stable insertion sort under code-point comparison of the ids. -/

/-- Lexicographic code-point comparison of strings (the comparator order). -/
def charListLe : List Char → List Char → Bool
  | [], _ => true
  | _ :: _, [] => false
  | a :: as, b :: bs =>
    if a.toNat < b.toNat then true
    else if b.toNat < a.toNat then false
    else charListLe as bs

def strLe (a b : String) : Bool := charListLe a.data b.data

def cveLe (a b : CveInfo) : Bool := strLe a.id b.id

/-- Stable insertion: the new element goes after every element that compares
less-or-equal to it, so elements with equal ids keep their relative order. -/
def insertCve (x : CveInfo) : List CveInfo → List CveInfo
  | [] => [x]
  | y :: ys => if cveLe y x then y :: insertCve x ys else x :: y :: ys

/-- `result.securityIssues.sort((a, b) => a.id.localeCompare(b.id))`. -/
def sortByIdentifier (issues : List CveInfo) : List CveInfo :=
  issues.foldl (fun acc x => insertCve x acc) []

/-! The patch-gap scan of `getLatestRelease`. -/

/-- The template string of the loop body:
`` `${versionMajor}.${versionMinor}.${patch}` ``. -/
def synthVersion (major minor : String) (patch : Int) : String :=
  major ++ "." ++ minor ++ "." ++ toString patch

/-- `channel.releases.find((p) => p.runtime.version === version)`. -/
def findRuntimeRelease (channel : ReleaseChannel) (version : String) : Option Release :=
  channel.releases.find? (fun p => p.runtime.version == version)

/-- One iteration of the gap-scan `for` loop: `i` is the loop counter offset
from `currentPatch`.  A found release ORs its security flag into the
accumulator and appends its (mapped) `cve-list` when that list is present. -/
def scanStep (channel : ReleaseChannel) (major minor : String) (currentPatch : Int)
    (acc : Bool × List CveInfo) (i : Nat) : Bool × List CveInfo :=
  match findRuntimeRelease channel (synthVersion major minor (currentPatch + (i : Int))) with
  | some release =>
    (acc.1 || release.security,
      match release.cveList with
      | some issues => acc.2 ++ mapCves issues
      | none => acc.2)
  | none => acc

/-- The whole `for (let patch = currentPatch; patch < latestPatch; patch++)`
loop, folding `scanStep` over the loop counter. -/
def scanGap (channel : ReleaseChannel) (major minor : String)
    (currentPatch latestPatch : Int) (init : Bool × List CveInfo) : Bool × List CveInfo :=
  (List.range (latestPatch - currentPatch).toNat).foldl
    (scanStep channel major minor currentPatch) init

/-- Security flag contributed by one synthesized patch version (specification
view of `scanStep`'s first component). -/
def gapSecurityAt (channel : ReleaseChannel) (major minor : String) (p : Int) : Bool :=
  match findRuntimeRelease channel (synthVersion major minor p) with
  | some r => r.security
  | none => false

/-- Advisories contributed by one synthesized patch version (specification
view of `scanStep`'s second component). -/
def gapIssuesAt (channel : ReleaseChannel) (major minor : String) (p : Int) : List CveInfo :=
  match findRuntimeRelease channel (synthVersion major minor p) with
  | some r =>
    match r.cveList with
    | some issues => mapCves issues
    | none => []
  | none => []

/-- The integer patch values the loop visits: from `currentPatch` inclusive up
to `latestPatch` exclusive. -/
def patchRange (currentPatch latestPatch : Int) : List Int :=
  (List.range (latestPatch - currentPatch).toNat).map
    (fun i : Nat => currentPatch + (i : Int))

/-- `` `${versionMajor}` `` / `` `${versionMinor}` `` of the gap scan: the
rendered `parseInt` of segment `i` of an info's runtime version. -/
def segString (info : ReleaseInfo) (i : Nat) : String :=
  numToString (parseAt (jsSplitDots info.runtimeVersion) i)

/-- The guarded gap-scan block of `getLatestRelease` (lines 37-62): produces
the aggregate `(security, securityIssues)` pair before the final sort, or a
thrown `TypeError` when a version has no third dot-separated segment (the
JavaScript dereferences `parts[2].includes`). -/
def gapScanResult (channel : ReleaseChannel) (current latest : ReleaseInfo) :
    Except String (Bool × List CveInfo) :=
  match (jsSplitDots current.runtimeVersion).get? 2 with
  | none => .error "TypeError"
  | some currentPatchSeg =>
    if containsChar currentPatchSeg '-' then .ok (latest.security, latest.securityIssues)
    else
      match (jsSplitDots latest.runtimeVersion).get? 2 with
      | none => .error "TypeError"
      | some latestPatchSeg =>
        if containsChar latestPatchSeg '-' then .ok (latest.security, latest.securityIssues)
        else
          match parseIntJs currentPatchSeg, parseIntJs latestPatchSeg with
          | some currentPatch, some latestPatch =>
            if 1 < latestPatch - currentPatch then
              .ok (scanGap channel (segString current 0) (segString current 1)
                    currentPatch latestPatch (latest.security, latest.securityIssues))
            else .ok (latest.security, latest.securityIssues)
          | _, _ => .ok (latest.security, latest.securityIssues)

/-- `DotNetSdkUpdater.getLatestRelease`: resolve current and latest, seed the
aggregate from latest, run the guarded patch-gap scan, sort the aggregate
advisory list by identifier. -/
def getLatestRelease (currentSdkVersion : String) (channel : ReleaseChannel) :
    Except String SdkVersions :=
  match getReleaseForSdk currentSdkVersion channel with
  | .error e => .error e
  | .ok current =>
    match getReleaseForSdk channel.latestSdk channel with
    | .error e => .error e
    | .ok latest =>
      match gapScanResult channel current latest with
      | .error e => .error e
      | .ok res =>
        .ok { current := current, latest := latest, security := res.1,
              securityIssues := sortByIdentifier res.2 }

/-! `generateCommitMessage`. -/

/-- The major/minor/patch classification of `generateCommitMessage`. -/
def updateKind (currentSdkVersion latestSdkVersion : String) : String :=
  let currentVersion := jsSplitDots currentSdkVersion
  let latestVersion := jsSplitDots latestSdkVersion
  if jsGt (parseAt latestVersion 0) (parseAt currentVersion 0) then "major"
  else if jsGt (parseAt latestVersion 1) (parseAt currentVersion 1) then "minor"
  else "patch"

/-- The `messageLines` array of `generateCommitMessage`. -/
def commitMessageLines (currentSdkVersion latestSdkVersion : String) : List String :=
  ["Update .NET SDK",
   "",
   "Update .NET SDK to version " ++ latestSdkVersion ++ ".",
   "",
   "---",
   "updated-dependencies:",
   "- dependency-name: Microsoft.NET.Sdk",
   "  dependency-type: direct:production",
   "  update-type: version-update:semver-" ++ updateKind currentSdkVersion latestSdkVersion,
   "...",
   "",
   ""]

/-- `Array.prototype.join` with a separator. -/
def joinWith (sep : String) : List String → String
  | [] => ""
  | [x] => x
  | x :: xs => x ++ sep ++ joinWith sep xs

/-- `DotNetSdkUpdater.generateCommitMessage`. -/
def generateCommitMessage (currentSdkVersion latestSdkVersion : String) : String :=
  joinWith "\n" (commitMessageLines currentSdkVersion latestSdkVersion)

/-! Orchestration (`tryUpdateSdk`, `applySdkUpdate`, `createPullRequest`,
`main.run`).  External collaborators (git CLI, filesystem write, hosting API)
are modelled by an environment record and an explicit trace of effects.
Unset string options are the empty string, matching `@actions/core.getInput`
returning `''` (JavaScript falsy, like `undefined`). -/

/-- The subset of `UpdateOptions` the modelled code reads. -/
structure UpdateOptions where
  accessToken : String := ""
  apiUrl : String := ""
  branch : String := ""
  channel : String := ""
  commitMessage : String := ""
  dryRun : Bool := false
  globalJsonPath : String := ""
  labels : String := ""
  repo : String := ""
  serverUrl : String := ""
  userEmail : String := ""
  userName : String := ""
  deriving DecidableEq

/-- Responses of the external collaborators for one run. -/
structure GitEnv where
  headBranch : String
  remoteBranchExists : Bool
  prNumber : Nat := 1
  prUrl : String := ""
  deriving DecidableEq

/-- The externally visible operations a run can perform. -/
inductive RunEffect where
  | gitRevParseHead
  | writeGlobalJson (version : String)
  | gitConfigUserName (name : String)
  | gitConfigUserEmail (email : String)
  | gitRemoteSetUrl (url : String)
  | gitFetch
  | gitBranchCheck (branch : String)
  | gitCheckoutNewBranch (branch : String)
  | gitAdd (path : String)
  | gitCommit (message : String)
  | gitLogHead
  | gitPush (branch : String)
  | openPullRequest (head : String) (base : String)
  | addLabels (labels : List String)
  deriving DecidableEq

/-- Effects the idempotence check is required to prevent: branch creation,
commit, push and proposed-change creation. -/
def isMutationEffect : RunEffect → Bool
  | .gitCheckoutNewBranch _ => true
  | .gitCommit _ => true
  | .gitPush _ => true
  | .openPullRequest _ _ => true
  | _ => false

/-- The `UpdateResult` built by `tryUpdateSdk`.  The object literal at
DotNetSdkUpdater.ts:144-150 sets no `branchName`, so the field defaults to
`none` (JavaScript `undefined`) and nothing later assigns it. -/
structure UpdateResult where
  branchName : Option String := none
  pullRequestNumber : Nat
  pullRequestUrl : String
  updated : Bool
  security : Bool
  version : String
  deriving DecidableEq

/-- `applySdkUpdate`: write the manifest, derive branch name and commit
message, configure git, check for an existing remote branch, and only then
create/commit/push the branch.  Returns the effect trace, the base branch to
target (`none` when the remote branch already existed) and the mutated
options. -/
def applySdkUpdate (opts : UpdateOptions) (env : GitEnv) (versions : SdkVersions) :
    List RunEffect × Option String × UpdateOptions :=
  let base := env.headBranch
  let effects1 := [RunEffect.gitRevParseHead, RunEffect.writeGlobalJson versions.latest.sdkVersion]
  let opts1 :=
    if opts.branch = "" then
      { opts with branch := jsToLower ("update-dotnet-sdk-" ++ versions.latest.sdkVersion) }
    else opts
  let opts2 :=
    if opts1.commitMessage = "" then
      { opts1 with commitMessage :=
          generateCommitMessage versions.current.sdkVersion versions.latest.sdkVersion }
    else opts1
  let effects2 := effects1 ++
    (if opts2.userName = "" then [] else [RunEffect.gitConfigUserName opts2.userName]) ++
    (if opts2.userEmail = "" then [] else [RunEffect.gitConfigUserEmail opts2.userEmail]) ++
    (if opts2.repo = "" then []
     else [RunEffect.gitRemoteSetUrl (opts2.serverUrl ++ "/" ++ opts2.repo ++ ".git"),
           RunEffect.gitFetch]) ++
    [RunEffect.gitBranchCheck opts2.branch]
  if env.remoteBranchExists then
    (effects2, none, opts2)
  else
    let effects3 := effects2 ++
      [RunEffect.gitCheckoutNewBranch opts2.branch,
       RunEffect.gitAdd opts2.globalJsonPath,
       RunEffect.gitCommit opts2.commitMessage,
       RunEffect.gitLogHead] ++
      (if !opts2.dryRun && !(opts2.repo = "") then [RunEffect.gitPush opts2.branch] else [])
    (effects3, some base, opts2)

/-- `createPullRequest`: on dry-run report placeholders without calling the
API; otherwise open the proposed change and, when labels are configured,
attach them (label failure is swallowed and does not change the result). -/
def createPullRequest (opts : UpdateOptions) (env : GitEnv) (base : String) :
    (Nat × String) × List RunEffect :=
  if opts.dryRun then ((0, ""), [])
  else
    ((env.prNumber, env.prUrl),
     [RunEffect.openPullRequest opts.branch base] ++
       (if opts.labels = "" then []
        else [RunEffect.addLabels (opts.labels.splitOn ",")]))

/-- `tryUpdateSdk`: read the manifest version (`none` models a missing
`sdk`/`sdk.version` field), derive the channel when unset, resolve the release
delta, and apply the update only when current and latest SDK versions differ.
The channel feed fetch is modelled by the `channel` argument. -/
def tryUpdateSdk (globalJsonSdk : Option String) (channel : ReleaseChannel)
    (opts : UpdateOptions) (env : GitEnv) : Except String (UpdateResult × List RunEffect) :=
  let sdkVersion := globalJsonSdk.getD ""
  if sdkVersion = "" then
    .error (".NET SDK version cannot be found in '" ++ opts.globalJsonPath ++ "'.")
  else
    let channelCheck : Except String UpdateOptions :=
      if opts.channel = "" then
        let versionParts := jsSplitDots sdkVersion
        if versionParts.length < 2 then
          .error (".NET SDK version '" ++ sdkVersion ++ "' is not valid.")
        else
          .ok { opts with channel := versionParts.getD 0 "" ++ "." ++ versionParts.getD 1 "" }
      else .ok opts
    match channelCheck with
    | .error e => .error e
    | .ok opts1 =>
      match getLatestRelease sdkVersion channel with
      | .error e => .error e
      | .ok update =>
        let result0 : UpdateResult :=
          { pullRequestNumber := 0, pullRequestUrl := "", updated := false,
            security := false, version := update.current.sdkVersion }
        if update.current.sdkVersion ≠ update.latest.sdkVersion then
          match applySdkUpdate opts1 env update with
          | (effects, some base, opts2) =>
            let pr := createPullRequest opts2 env base
            .ok ({ result0 with
                    pullRequestNumber := pr.1.1, pullRequestUrl := pr.1.2,
                    security := update.security, updated := true,
                    version := update.latest.sdkVersion }, effects ++ pr.2)
          | (effects, none, _) => .ok (result0, effects)
        else .ok (result0, [])

/-- The outputs `main.run` emits with `core.setOutput` (main.ts:51-56); an
`undefined` value is `none`. -/
def runOutputs (result : UpdateResult) : List (String × Option String) :=
  [("branch-name", result.branchName),
   ("pull-request-number", some (toString result.pullRequestNumber)),
   ("pull-request-html-url", some result.pullRequestUrl),
   ("sdk-updated", some (toString result.updated)),
   ("sdk-version", some result.version),
   ("security", some (toString result.security))]

/-- A channel with every alternate-descriptor list removed; used to state
that a primary match never consults the alternates. -/
def stripAlternates (channel : ReleaseChannel) : ReleaseChannel :=
  { channel with releases := channel.releases.map (fun r => { r with sdks := none }) }

/-! Concrete feeds used to instantiate the theorems. -/

/-- Channel in which the current release itself is the only security-flagged
one: runtime 8.0.0 (security, CVE-A), 8.0.1 (clean), 8.0.2 (clean, latest). -/
def chGapCur : ReleaseChannel :=
  { latestSdk := "8.0.102"
    releases :=
      [{ security := true, cveList := some [{ cveId := "CVE-A", cveUrl := "https://a" }],
         releaseNotes := "https://notes/8.0.0",
         runtime := { version := "8.0.0" }, sdk := { version := "8.0.100" } },
       { security := false, releaseNotes := "https://notes/8.0.1",
         runtime := { version := "8.0.1" }, sdk := { version := "8.0.101" } },
       { security := false, releaseNotes := "https://notes/8.0.2",
         runtime := { version := "8.0.2" }, sdk := { version := "8.0.102" } }] }

/-- Channel with a security-flagged current release one patch behind a clean
latest release (patch delta 1, so no gap scan). -/
def chDeltaOne : ReleaseChannel :=
  { latestSdk := "8.0.102"
    releases :=
      [{ security := true, cveList := some [{ cveId := "CVE-B", cveUrl := "https://b" }],
         releaseNotes := "https://notes/8.0.1",
         runtime := { version := "8.0.1" }, sdk := { version := "8.0.101" } },
       { security := false, releaseNotes := "https://notes/8.0.2",
         runtime := { version := "8.0.2" }, sdk := { version := "8.0.102" } }] }

/-- The resolved delta of `chDeltaOne` for current SDK 8.0.101. -/
def deltaOneVersions : SdkVersions :=
  { current := { releaseNotes := "https://notes/8.0.1", runtimeVersion := "8.0.1",
                 sdkVersion := "8.0.101", security := true,
                 securityIssues := [{ id := "CVE-B", url := "https://b" }] }
    latest := { releaseNotes := "https://notes/8.0.2", runtimeVersion := "8.0.2",
                sdkVersion := "8.0.102", security := false, securityIssues := [] }
    security := false
    securityIssues := [] }

/-- Channel where the same advisory identifier occurs on the current and the
latest release, so the aggregation produces a duplicate. -/
def chDupCve : ReleaseChannel :=
  { latestSdk := "8.0.102"
    releases :=
      [{ security := true, cveList := some [{ cveId := "CVE-X", cveUrl := "https://x" }],
         runtime := { version := "8.0.0" }, sdk := { version := "8.0.100" } },
       { security := true, cveList := some [{ cveId := "CVE-X", cveUrl := "https://x" }],
         runtime := { version := "8.0.2" }, sdk := { version := "8.0.102" } }] }

/-- Up-to-date single-release channel (current equals latest). -/
def chUpToDate : ReleaseChannel :=
  { latestSdk := "9.0.100"
    releases :=
      [{ security := true, cveList := some [{ cveId := "CVE-W", cveUrl := "https://w" }],
         releaseNotes := "https://notes/9.0.0",
         runtime := { version := "9.0.0" }, sdk := { version := "9.0.100" } }] }

/-- The resolved delta of `chUpToDate` for current SDK 9.0.100. -/
def upToDateVersions : SdkVersions :=
  { current := { releaseNotes := "https://notes/9.0.0", runtimeVersion := "9.0.0",
                 sdkVersion := "9.0.100", security := true,
                 securityIssues := [{ id := "CVE-W", url := "https://w" }] }
    latest := { releaseNotes := "https://notes/9.0.0", runtimeVersion := "9.0.0",
                sdkVersion := "9.0.100", security := true,
                securityIssues := [{ id := "CVE-W", url := "https://w" }] }
    security := true
    securityIssues := [{ id := "CVE-W", url := "https://w" }] }

/-- Channel whose patch segments carry pre-release suffixes. -/
def chPreview : ReleaseChannel :=
  { latestSdk := "8.0.100-preview.2"
    releases :=
      [{ security := true, cveList := some [{ cveId := "CVE-P", cveUrl := "https://p" }],
         runtime := { version := "8.0.0-preview.1" }, sdk := { version := "8.0.100-preview.1" } },
       { security := false,
         runtime := { version := "8.0.0-preview.2" }, sdk := { version := "8.0.100-preview.2" } }] }

/-- Channel listing 6.0.100 both as a primary descriptor (first release) and
as an alternate descriptor (second release). -/
def chPrimAndAlt : ReleaseChannel :=
  { latestSdk := "6.0.101"
    releases :=
      [{ security := false, runtime := { version := "6.0.0" },
         sdk := { version := "6.0.100" }, sdks := some [{ version := "6.0.100" }] },
       { security := false, runtime := { version := "6.0.1" },
         sdk := { version := "6.0.101" }, sdks := some [{ version := "6.0.100" }] }] }

/-- Channel where 6.0.104 exists only as an alternate descriptor. -/
def chAltOnly : ReleaseChannel :=
  { latestSdk := "6.0.102"
    releases :=
      [{ security := false, releaseNotes := "https://notes/6.0.2",
         runtime := { version := "6.0.2" }, sdk := { version := "6.0.102" },
         sdks := some [{ version := "6.0.103" }, { version := "6.0.104" }] }] }

/-- The `ReleaseInfo` resolved for 6.0.104 in `chAltOnly`. -/
def altOnlyInfo : ReleaseInfo :=
  { releaseNotes := "https://notes/6.0.2", runtimeVersion := "6.0.2",
    sdkVersion := "6.0.104", security := false, securityIssues := [] }

/-- Channel with an ambiguous primary match for 7.0.100 and an alternate
descriptor for the same version on a third release. -/
def chAmbiguous : ReleaseChannel :=
  { latestSdk := "7.0.100"
    releases :=
      [{ security := false, runtime := { version := "7.0.0" }, sdk := { version := "7.0.100" } },
       { security := true, runtime := { version := "7.0.1" }, sdk := { version := "7.0.100" } },
       { security := false, runtime := { version := "7.0.2" }, sdk := { version := "7.0.102" },
         sdks := some [{ version := "7.0.100" }] }] }

/-- Environment in which the derived remote branch already exists. -/
def envBranchExists : GitEnv := { headBranch := "main", remoteBranchExists := true }

/-- Environment with no pre-existing remote branch. -/
def envFresh : GitEnv := { headBranch := "main", remoteBranchExists := false, prNumber := 42, prUrl := "https://pr/42" }

/-- The `ReleaseInfo` resolved for SDK 8.0.100 in `chGapCur`. -/
def gapCurCurrent : ReleaseInfo :=
  { releaseNotes := "https://notes/8.0.0", runtimeVersion := "8.0.0",
    sdkVersion := "8.0.100", security := true,
    securityIssues := [{ id := "CVE-A", url := "https://a" }] }

/-- The `ReleaseInfo` resolved for the latest SDK 8.0.102 in `chGapCur`. -/
def gapCurLatest : ReleaseInfo :=
  { releaseNotes := "https://notes/8.0.2", runtimeVersion := "8.0.2",
    sdkVersion := "8.0.102", security := false, securityIssues := [] }

/-- The `ReleaseInfo` resolved for SDK 8.0.100-preview.1 in `chPreview`. -/
def previewCurrent : ReleaseInfo :=
  { releaseNotes := "", runtimeVersion := "8.0.0-preview.1",
    sdkVersion := "8.0.100-preview.1", security := true,
    securityIssues := [{ id := "CVE-P", url := "https://p" }] }

/-- The `ReleaseInfo` resolved for the latest SDK 8.0.100-preview.2 in
`chPreview`. -/
def previewLatest : ReleaseInfo :=
  { releaseNotes := "", runtimeVersion := "8.0.0-preview.2",
    sdkVersion := "8.0.100-preview.2", security := false, securityIssues := [] }

/-- The `ReleaseInfo` resolved for SDK 8.0.101 in `chDeltaOne`. -/
def deltaOneCurrent : ReleaseInfo :=
  { releaseNotes := "https://notes/8.0.1", runtimeVersion := "8.0.1",
    sdkVersion := "8.0.101", security := true,
    securityIssues := [{ id := "CVE-B", url := "https://b" }] }

/-- The `ReleaseInfo` resolved for the latest SDK 8.0.102 in `chDeltaOne`. -/
def deltaOneLatest : ReleaseInfo :=
  { releaseNotes := "https://notes/8.0.2", runtimeVersion := "8.0.2",
    sdkVersion := "8.0.102", security := false, securityIssues := [] }

/-- The result of the update-applying run on `chDeltaOne` with fresh remote
state and default options. -/
def updatedRunResult : UpdateResult :=
  { branchName := none, pullRequestNumber := 42, pullRequestUrl := "https://pr/42",
    updated := true, security := false, version := "8.0.102" }

/-- The effect trace of the update-applying run on `chDeltaOne` with fresh
remote state and default options. -/
def updatedRunEffects : List RunEffect :=
  [.gitRevParseHead, .writeGlobalJson "8.0.102",
   .gitBranchCheck "update-dotnet-sdk-8.0.102",
   .gitCheckoutNewBranch "update-dotnet-sdk-8.0.102", .gitAdd "",
   .gitCommit (generateCommitMessage "8.0.101" "8.0.102"), .gitLogHead,
   .openPullRequest "update-dotnet-sdk-8.0.102" "main"]

/-! Lemmas about the version matcher. -/

theorem findSdkInList_version {v : String} : ∀ {l : List Sdk} {s : Sdk},
    findSdkInList v l = some s → s.version = v := by
  intro l
  induction l with
  | nil => intro s h; simp [findSdkInList] at h
  | cons a t ih =>
    intro s h
    by_cases hv : a.version == v
    · simp [findSdkInList, hv] at h
      subst h
      exact beq_iff_eq.mp hv
    · simp [findSdkInList, hv] at h
      exact ih h

theorem findSdkInList_eq_none {v : String} : ∀ {l : List Sdk},
    (∀ s ∈ l, s.version ≠ v) → findSdkInList v l = none := by
  intro l
  induction l with
  | nil => intro _; rfl
  | cons a t ih =>
    intro h
    have ha : ¬(a.version == v) := by
      simp only [beq_iff_eq]
      exact h a (List.mem_cons_self a t)
    simp [findSdkInList, ha]
    exact ih (fun s hs => h s (List.mem_cons_of_mem a hs))

theorem altScan_foldl_version {v : String} : ∀ (rs : List Release)
    (acc : List Release × Option Sdk),
    (∀ s, acc.2 = some s → s.version = v) →
    ∀ s, (rs.foldl
      (fun acc info =>
        match info.sdks with
        | some sdks =>
          match findSdkInList v sdks with
          | some s => (acc.1 ++ [info], some s)
          | none => acc
        | none => acc) acc).2 = some s → s.version = v := by
  intro rs
  induction rs with
  | nil => intro acc hacc s h; exact hacc s h
  | cons r t ih =>
    intro acc hacc s h
    refine ih _ ?_ s h
    rcases hsdks : r.sdks with _ | l
    · simpa [hsdks] using hacc
    · rcases hfind : findSdkInList v l with _ | sd
      · simpa [hsdks, hfind] using hacc
      · intro sx hx
        simp only [hsdks, hfind] at hx
        cases hx
        exact findSdkInList_version hfind

theorem altScan_version {v : String} {rs : List Release} {s : Sdk}
    (h : (altScan v rs).2 = some s) : s.version = v := by
  unfold altScan at h
  exact altScan_foldl_version rs ([], none) (by intro s h; cases h) s h

theorem altScan_foldl_nomatch {v : String} : ∀ (rs : List Release)
    (acc : List Release × Option Sdk),
    (∀ r ∈ rs, findSdkInList v (r.sdks.getD []) = none) →
    (rs.foldl
      (fun acc info =>
        match info.sdks with
        | some sdks =>
          match findSdkInList v sdks with
          | some s => (acc.1 ++ [info], some s)
          | none => acc
        | none => acc) acc) = acc := by
  intro rs
  induction rs with
  | nil => intro acc _; rfl
  | cons r t ih =>
    intro acc h
    have hr := h r (List.mem_cons_self r t)
    have ht : ∀ x ∈ t, findSdkInList v (x.sdks.getD []) = none :=
      fun x hx => h x (List.mem_cons_of_mem r hx)
    rcases hsdks : r.sdks with _ | l
    · simpa [List.foldl_cons, hsdks] using ih acc ht
    · rw [hsdks] at hr
      simp only [Option.getD_some] at hr
      simpa [List.foldl_cons, hsdks, hr] using ih acc ht

theorem altScan_nomatch {v : String} {rs : List Release}
    (h : ∀ r ∈ rs, findSdkInList v (r.sdks.getD []) = none) :
    altScan v rs = ([], none) := by
  unfold altScan
  exact altScan_foldl_nomatch rs ([], none) h

theorem primaryMatches_strip (v : String) (ch : ReleaseChannel) :
    primaryMatches v (stripAlternates ch) =
      (primaryMatches v ch).map (fun r => { r with sdks := none }) := by
  unfold primaryMatches stripAlternates
  simp only
  induction ch.releases with
  | nil => rfl
  | cons r t ih =>
    by_cases hv : r.sdk.version == v
    · simp [List.filter_cons, hv, ih]
    · simp [List.filter_cons, hv, ih]

/-- C4: a primary-descriptor match always takes precedence over an
alternate-descriptor match: whenever at least one release's primary SDK
descriptor equals the target, the result of `getReleaseForSdk` is unchanged
when every alternate-descriptor list is removed (the alternate scan is never
consulted); and when the version occurs only as an alternate descriptor, the
returned `sdkVersion` is the matching alternate descriptor's version — the
requested version itself — which differs from every release's primary
descriptor's version. -/
theorem c4_primary_precedence (v : String) (ch : ReleaseChannel) :
    (1 ≤ (primaryMatches v ch).length →
      getReleaseForSdk v ch = getReleaseForSdk v (stripAlternates ch)) ∧
    (primaryMatches v ch = [] →
      ∀ info, getReleaseForSdk v ch = .ok info →
        info.sdkVersion = v ∧ ∀ r ∈ ch.releases, info.sdkVersion ≠ r.sdk.version) := by
  constructor
  · intro hlen
    have hmap := primaryMatches_strip v ch
    rcases hlist : primaryMatches v ch with _ | ⟨r, rest⟩
    · rw [hlist] at hlen; simp at hlen
    · rw [hlist] at hmap
      rcases rest with _ | ⟨r2, rest2⟩
      · simp [getReleaseForSdk, hlist, hmap, mkReleaseInfo]
      · simp [getReleaseForSdk, hlist, hmap]
  · intro hz info hok
    unfold getReleaseForSdk at hok
    rw [hz] at hok
    simp only [List.length_nil] at hok
    norm_num at hok
    rcases halt : altScan v ch.releases with ⟨l, o⟩
    rw [halt] at hok
    rcases l with _ | ⟨rel, lrest⟩
    · simp at hok
    · rcases o with _ | sd
      · simp at hok
      · simp only at hok
        cases hok
        have hver : sd.version = v := altScan_version (by rw [halt])
        constructor
        · simpa [mkReleaseInfo] using hver
        · intro r hr
          have hprim := List.filter_eq_nil_iff.mp hz r hr
          simp only [beq_iff_eq] at hprim
          simp [mkReleaseInfo, hver]
          exact fun hc => hprim hc.symm

/-- C5: a version absent from every primary descriptor and from every
alternate-descriptor list fails with the release-not-found error naming the
requested version, and no `ReleaseInfo` is returned. -/
theorem c5_release_not_found (v : String) (ch : ReleaseChannel)
    (hp : ∀ r ∈ ch.releases, r.sdk.version ≠ v)
    (ha : ∀ r ∈ ch.releases, ∀ s ∈ r.sdks.getD [], s.version ≠ v) :
    getReleaseForSdk v ch = .error (notFoundMessage v) := by
  have hz : primaryMatches v ch = [] := by
    unfold primaryMatches
    refine List.filter_eq_nil_iff.mpr ?_
    intro r hr
    simp only [beq_iff_eq]
    exact hp r hr
  have halt : altScan v ch.releases = ([], none) := by
    refine altScan_nomatch ?_
    intro r hr
    exact findSdkInList_eq_none (fun s hs => ha r hr s hs)
  unfold getReleaseForSdk
  rw [hz, halt]
  simp

/-- C10: when two or more releases' primary SDK descriptors equal the
requested version, `getReleaseForSdk` selects none of them, does not fall
back to the alternate-descriptor scan, and fails with the same
release-not-found error as for an absent version. -/
theorem c10_ambiguous_primary (v : String) (ch : ReleaseChannel)
    (h : 2 ≤ (primaryMatches v ch).length) :
    getReleaseForSdk v ch = .error (notFoundMessage v) := by
  rcases hlist : primaryMatches v ch with _ | ⟨a, rest⟩
  · rw [hlist] at h; simp at h
  · rcases rest with _ | ⟨b, rest2⟩
    · rw [hlist] at h; simp at h
    · simp [getReleaseForSdk, hlist]

/-- Witness for C4: both branches exercised on concrete channels — a version
present as primary and alternate resolves identically with alternates
stripped, and an alternate-only version resolves to the alternate
descriptor's version. -/
theorem c4_primary_precedence_witness :
    getReleaseForSdk "6.0.100" chPrimAndAlt
        = getReleaseForSdk "6.0.100" (stripAlternates chPrimAndAlt) ∧
    altOnlyInfo.sdkVersion = "6.0.104" :=
  ⟨(c4_primary_precedence "6.0.100" chPrimAndAlt).1 (by decide),
   ((c4_primary_precedence "6.0.104" chAltOnly).2 (by decide) altOnlyInfo (by decide)).1⟩

/-- Witness for C5 at a concrete absent version. -/
theorem c5_release_not_found_witness :
    getReleaseForSdk "1.2.3" chUpToDate = .error (notFoundMessage "1.2.3") :=
  c5_release_not_found "1.2.3" chUpToDate (by decide) (by decide)

/-- Witness for C10 on a channel with a duplicated primary descriptor and an
alternate descriptor for the same version. -/
theorem c10_ambiguous_primary_witness :
    getReleaseForSdk "7.0.100" chAmbiguous = .error (notFoundMessage "7.0.100") :=
  c10_ambiguous_primary "7.0.100" chAmbiguous (by decide)

/-! Lemmas about the gap scan and `getLatestRelease`. -/

theorem any_map_fun {α β : Type} (f : α → β) (l : List α) (p : β → Bool) :
    (l.map f).any p = l.any (fun a => p (f a)) := by
  induction l with
  | nil => rfl
  | cons a t ih => simp [ih]

theorem scanStep_fst (ch : ReleaseChannel) (a b : String) (cp : Int)
    (acc : Bool × List CveInfo) (i : Nat) :
    (scanStep ch a b cp acc i).1 = (acc.1 || gapSecurityAt ch a b (cp + (i : Int))) := by
  unfold scanStep gapSecurityAt
  rcases h : findRuntimeRelease ch (synthVersion a b (cp + (i : Int))) with _ | r
  · simp
  · simp

theorem scanStep_snd (ch : ReleaseChannel) (a b : String) (cp : Int)
    (acc : Bool × List CveInfo) (i : Nat) :
    (scanStep ch a b cp acc i).2 = acc.2 ++ gapIssuesAt ch a b (cp + (i : Int)) := by
  unfold scanStep gapIssuesAt
  rcases h : findRuntimeRelease ch (synthVersion a b (cp + (i : Int))) with _ | r
  · simp
  · rcases hc : r.cveList with _ | issues
    · simp [hc]
    · simp [hc]

theorem scanFold_fst (ch : ReleaseChannel) (a b : String) (cp : Int) :
    ∀ (l : List Nat) (acc : Bool × List CveInfo),
    (l.foldl (scanStep ch a b cp) acc).1 =
      (acc.1 || l.any (fun i : Nat => gapSecurityAt ch a b (cp + (i : Int)))) := by
  intro l
  induction l with
  | nil => intro acc; simp
  | cons i t ih =>
    intro acc
    rw [List.foldl_cons, ih, scanStep_fst]
    simp [Bool.or_assoc]

theorem scanFold_snd (ch : ReleaseChannel) (a b : String) (cp : Int) :
    ∀ (l : List Nat) (acc : Bool × List CveInfo),
    (l.foldl (scanStep ch a b cp) acc).2 =
      acc.2 ++ (l.map (fun i : Nat => gapIssuesAt ch a b (cp + (i : Int)))).flatten := by
  intro l
  induction l with
  | nil => intro acc; simp
  | cons i t ih =>
    intro acc
    rw [List.foldl_cons, ih, scanStep_snd]
    simp

theorem scanGap_fst (ch : ReleaseChannel) (a b : String) (cp lp : Int)
    (init : Bool × List CveInfo) :
    (scanGap ch a b cp lp init).1 =
      (init.1 || (patchRange cp lp).any (fun p => gapSecurityAt ch a b p)) := by
  unfold scanGap patchRange
  rw [scanFold_fst, any_map_fun]

theorem scanGap_snd (ch : ReleaseChannel) (a b : String) (cp lp : Int)
    (init : Bool × List CveInfo) :
    (scanGap ch a b cp lp init).2 =
      init.2 ++ ((patchRange cp lp).map (fun p => gapIssuesAt ch a b p)).flatten := by
  unfold scanGap patchRange
  rw [scanFold_snd, List.map_map]
  rfl

theorem mem_patchRange (p cp lp : Int) :
    p ∈ patchRange cp lp ↔ cp ≤ p ∧ p < lp := by
  constructor
  · intro h
    unfold patchRange at h
    obtain ⟨i, hi, hp⟩ := List.mem_map.mp h
    rw [List.mem_range] at hi
    omega
  · intro h
    unfold patchRange
    refine List.mem_map.mpr ⟨(p - cp).toNat, ?_, ?_⟩
    · rw [List.mem_range]; omega
    · omega

theorem gapScanResult_skip_cur {ch : ReleaseChannel} {cur lat : ReleaseInfo} {cseg : String}
    (hc : (jsSplitDots cur.runtimeVersion).get? 2 = some cseg)
    (hdash : containsChar cseg '-' = true) :
    gapScanResult ch cur lat = .ok (lat.security, lat.securityIssues) := by
  unfold gapScanResult
  rw [hc]
  simp [hdash]

theorem gapScanResult_skip_lat {ch : ReleaseChannel} {cur lat : ReleaseInfo} {cseg lseg : String}
    (hc : (jsSplitDots cur.runtimeVersion).get? 2 = some cseg)
    (hcd : containsChar cseg '-' = false)
    (hl : (jsSplitDots lat.runtimeVersion).get? 2 = some lseg)
    (hdash : containsChar lseg '-' = true) :
    gapScanResult ch cur lat = .ok (lat.security, lat.securityIssues) := by
  unfold gapScanResult
  rw [hc]
  simp only [hcd, Bool.false_eq_true, if_false]
  rw [hl]
  simp [hdash]

theorem gapScanResult_scan {ch : ReleaseChannel} {cur lat : ReleaseInfo} {cseg lseg : String}
    {cp lp : Int}
    (hc : (jsSplitDots cur.runtimeVersion).get? 2 = some cseg)
    (hcd : containsChar cseg '-' = false)
    (hl : (jsSplitDots lat.runtimeVersion).get? 2 = some lseg)
    (hld : containsChar lseg '-' = false)
    (hcp : parseIntJs cseg = some cp)
    (hlp : parseIntJs lseg = some lp)
    (hdelta : 1 < lp - cp) :
    gapScanResult ch cur lat =
      .ok (scanGap ch (segString cur 0) (segString cur 1) cp lp
            (lat.security, lat.securityIssues)) := by
  unfold gapScanResult
  rw [hc]
  simp only [hcd, Bool.false_eq_true, if_false]
  rw [hl]
  simp only [hld, Bool.false_eq_true, if_false]
  rw [hcp, hlp]
  simp [hdelta]

theorem gapScanResult_small {ch : ReleaseChannel} {cur lat : ReleaseInfo} {cseg lseg : String}
    {cp lp : Int}
    (hc : (jsSplitDots cur.runtimeVersion).get? 2 = some cseg)
    (hcd : containsChar cseg '-' = false)
    (hl : (jsSplitDots lat.runtimeVersion).get? 2 = some lseg)
    (hld : containsChar lseg '-' = false)
    (hcp : parseIntJs cseg = some cp)
    (hlp : parseIntJs lseg = some lp)
    (hdelta : ¬1 < lp - cp) :
    gapScanResult ch cur lat = .ok (lat.security, lat.securityIssues) := by
  unfold gapScanResult
  rw [hc]
  simp only [hcd, Bool.false_eq_true, if_false]
  rw [hl]
  simp only [hld, Bool.false_eq_true, if_false]
  rw [hcp, hlp]
  simp [hdelta]

theorem getLatestRelease_ok {v : String} {ch : ReleaseChannel} {cur lat : ReleaseInfo}
    (h1 : getReleaseForSdk v ch = .ok cur)
    (h2 : getReleaseForSdk ch.latestSdk ch = .ok lat) :
    getLatestRelease v ch =
      match gapScanResult ch cur lat with
      | .error e => .error e
      | .ok res =>
        .ok { current := cur, latest := lat, security := res.1,
              securityIssues := sortByIdentifier res.2 } := by
  unfold getLatestRelease
  rw [h1, h2]

/-- C1 counterexample: in `chGapCur` the latest release (runtime 8.0.2) is
clean and the only release with a patch value strictly between current (0)
and latest (2) — runtime 8.0.1 — is clean with no advisories, yet the
aggregate is security-flagged and carries the advisory of the *current*
release (runtime 8.0.0).  Hence the gap scan does not enumerate only the
values strictly between the two patches: it includes the current patch. -/
theorem c1_counterexample :
    Except.map (fun r => (r.security, r.latest.security, r.securityIssues))
        (getLatestRelease "8.0.100" chGapCur)
      = .ok (true, false, [{ id := "CVE-A", url := "https://a" }]) ∧
    chGapCur.releases.all
      (fun r => (r.runtime.version != "8.0.1") || (!r.security && r.cveList.isNone)) = true := by
  decide

/-- C1 (amended): when neither resolved runtime version's patch segment
contains a pre-release suffix and the parsed patch delta exceeds 1, the gap
scan enumerates exactly the integer patch values from the current patch
(inclusive) up to the latest patch (exclusive); for every synthesized
`major.minor.patch` string whose release is found in the channel by
runtime-version equality it ORs that release's security flag into the
aggregate and appends that release's advisory list (when present); when
either patch segment carries a pre-release suffix the gap scan is skipped
entirely regardless of the numeric delta. -/
theorem c1_gap_scan_range (v : String) (ch : ReleaseChannel) (cur lat : ReleaseInfo)
    (cseg lseg : String)
    (h1 : getReleaseForSdk v ch = .ok cur)
    (h2 : getReleaseForSdk ch.latestSdk ch = .ok lat)
    (hc : (jsSplitDots cur.runtimeVersion).get? 2 = some cseg)
    (hl : (jsSplitDots lat.runtimeVersion).get? 2 = some lseg) :
    ((containsChar cseg '-' = true ∨ containsChar lseg '-' = true) →
      getLatestRelease v ch = .ok
        { current := cur, latest := lat,
          security := lat.security,
          securityIssues := sortByIdentifier lat.securityIssues }) ∧
    (∀ currentPatch latestPatch : Int,
      containsChar cseg '-' = false → containsChar lseg '-' = false →
      parseIntJs cseg = some currentPatch → parseIntJs lseg = some latestPatch →
      1 < latestPatch - currentPatch →
      getLatestRelease v ch = .ok
        { current := cur, latest := lat,
          security := (lat.security ||
            (patchRange currentPatch latestPatch).any
              (fun p => gapSecurityAt ch (segString cur 0) (segString cur 1) p)),
          securityIssues := sortByIdentifier (lat.securityIssues ++
            ((patchRange currentPatch latestPatch).map
              (fun p => gapIssuesAt ch (segString cur 0) (segString cur 1) p)).flatten) }) := by
  rw [getLatestRelease_ok h1 h2]
  constructor
  · intro hpre
    rcases hpre with hd | hd
    · rw [gapScanResult_skip_cur hc hd]
    · by_cases hcd : containsChar cseg '-' = true
      · rw [gapScanResult_skip_cur hc hcd]
      · rw [gapScanResult_skip_lat hc (Bool.not_eq_true _ ▸ hcd) hl hd]
  · intro cp lp hcd hld hcp hlp hdelta
    rw [gapScanResult_scan hc hcd hl hld hcp hlp hdelta]
    rw [show (scanGap ch (segString cur 0) (segString cur 1) cp lp
          (lat.security, lat.securityIssues))
        = ((scanGap ch (segString cur 0) (segString cur 1) cp lp
            (lat.security, lat.securityIssues)).1,
           (scanGap ch (segString cur 0) (segString cur 1) cp lp
            (lat.security, lat.securityIssues)).2) from rfl]
    rw [scanGap_fst, scanGap_snd]

/-- Witness for C1 (amended): the scan case on `chGapCur` (patch delta 2) and
the skip case on the pre-release channel `chPreview`. -/
theorem c1_gap_scan_range_witness :
    getLatestRelease "8.0.100" chGapCur = .ok
      { current := gapCurCurrent, latest := gapCurLatest,
        security := (gapCurLatest.security ||
          (patchRange 0 2).any
            (fun p => gapSecurityAt chGapCur (segString gapCurCurrent 0) (segString gapCurCurrent 1) p)),
        securityIssues := sortByIdentifier (gapCurLatest.securityIssues ++
          ((patchRange 0 2).map
            (fun p => gapIssuesAt chGapCur (segString gapCurCurrent 0) (segString gapCurCurrent 1) p)).flatten) } ∧
    getLatestRelease "8.0.100-preview.1" chPreview = .ok
      { current := previewCurrent,
        latest := previewLatest, security := previewLatest.security,
        securityIssues := sortByIdentifier previewLatest.securityIssues } :=
  ⟨(c1_gap_scan_range "8.0.100" chGapCur gapCurCurrent gapCurLatest "0" "2"
      (by decide) (by decide) (by decide) (by decide)).2 0 2
      (by decide) (by decide) (by decide) (by decide) (by decide),
   (c1_gap_scan_range "8.0.100-preview.1" chPreview previewCurrent previewLatest
      "0-preview" "0-preview" (by decide) (by decide) (by decide) (by decide)).1
      (Or.inl (by decide))⟩

/-- C2 counterexample: in `chDeltaOne` the current release is security-flagged
and the latest is not; the patch delta is 1, so no gap scan runs and the
aggregate security flag is `false` even though the current release is
security-flagged — refuting the claimed "current or latest" disjunction. -/
theorem c2_counterexample :
    Except.map (fun r => (r.current.security, r.security))
        (getLatestRelease "8.0.101" chDeltaOne) = .ok (true, false) := by
  decide

/-- C2 (amended): the aggregate security flag equals the latest release's
flag whenever the gap scan does not run (a pre-release patch segment, or a
patch delta of at most 1); when the scan runs (stable patch segments, delta
greater than 1) the aggregate flag is true iff the latest release is
security-flagged or some release found by runtime-version equality at an
integer patch value in [currentPatch, latestPatch) is security-flagged.  The
current release's flag counts only via the scanned range (which contains the
current patch value). -/
theorem c2_aggregate_security (v : String) (ch : ReleaseChannel) (cur lat : ReleaseInfo)
    (cseg lseg : String)
    (h1 : getReleaseForSdk v ch = .ok cur)
    (h2 : getReleaseForSdk ch.latestSdk ch = .ok lat)
    (hc : (jsSplitDots cur.runtimeVersion).get? 2 = some cseg)
    (hl : (jsSplitDots lat.runtimeVersion).get? 2 = some lseg) :
    ((containsChar cseg '-' = true ∨ containsChar lseg '-' = true) →
      Except.map SdkVersions.security (getLatestRelease v ch) = .ok lat.security) ∧
    (∀ currentPatch latestPatch : Int,
      containsChar cseg '-' = false → containsChar lseg '-' = false →
      parseIntJs cseg = some currentPatch → parseIntJs lseg = some latestPatch →
      ¬1 < latestPatch - currentPatch →
      Except.map SdkVersions.security (getLatestRelease v ch) = .ok lat.security) ∧
    (∀ currentPatch latestPatch : Int,
      containsChar cseg '-' = false → containsChar lseg '-' = false →
      parseIntJs cseg = some currentPatch → parseIntJs lseg = some latestPatch →
      1 < latestPatch - currentPatch →
      (Except.map SdkVersions.security (getLatestRelease v ch) = .ok true ↔
        (lat.security = true ∨ ∃ p : Int, currentPatch ≤ p ∧ p < latestPatch ∧
          gapSecurityAt ch (segString cur 0) (segString cur 1) p = true))) := by
  rw [getLatestRelease_ok h1 h2]
  refine ⟨?_, ?_, ?_⟩
  · intro hpre
    rcases hpre with hd | hd
    · rw [gapScanResult_skip_cur hc hd]; rfl
    · by_cases hcd : containsChar cseg '-' = true
      · rw [gapScanResult_skip_cur hc hcd]; rfl
      · rw [gapScanResult_skip_lat hc (Bool.not_eq_true _ ▸ hcd) hl hd]; rfl
  · intro cp lp hcd hld hcp hlp hdelta
    rw [gapScanResult_small hc hcd hl hld hcp hlp hdelta]; rfl
  · intro cp lp hcd hld hcp hlp hdelta
    rw [gapScanResult_scan hc hcd hl hld hcp hlp hdelta]
    simp only [Except.map, scanGap_fst, Except.ok.injEq]
    rw [Bool.or_eq_true]
    constructor
    · intro h
      rcases h with h | h
      · exact Or.inl h
      · rcases List.any_eq_true.mp h with ⟨p, hp, hsec⟩
        rcases (mem_patchRange p cp lp).mp hp with ⟨hp1, hp2⟩
        exact Or.inr ⟨p, hp1, hp2, hsec⟩
    · intro h
      rcases h with h | ⟨p, hp1, hp2, hsec⟩
      · exact Or.inl h
      · refine Or.inr (List.any_eq_true.mpr ⟨p, ?_, hsec⟩)
        exact (mem_patchRange p cp lp).mpr ⟨hp1, hp2⟩

/-- Witness for C2 (amended): the no-scan case on `chDeltaOne` (delta 1)
shows the aggregate flag is exactly the latest release's flag there. -/
theorem c2_aggregate_security_witness :
    Except.map SdkVersions.security (getLatestRelease "8.0.101" chDeltaOne)
      = .ok deltaOneLatest.security :=
  (c2_aggregate_security "8.0.101" chDeltaOne deltaOneCurrent deltaOneLatest "1" "2"
      (by decide) (by decide) (by decide) (by decide)).2.1 1 2
      (by decide) (by decide) (by decide) (by decide) (by decide)

/-! Totality and transitivity of the advisory comparator, and sortedness of
the stable insertion sort. -/

theorem charListLe_total : ∀ as bs : List Char,
    charListLe as bs = true ∨ charListLe bs as = true := by
  intro as
  induction as with
  | nil => intro bs; left; rfl
  | cons a as ih =>
    intro bs
    cases bs with
    | nil => right; rfl
    | cons b bs =>
      rcases Nat.lt_trichotomy a.toNat b.toNat with hlt | heq | hgt
      · left; simp [charListLe, hlt]
      · have h1 : ¬a.toNat < b.toNat := by omega
        have h2 : ¬b.toNat < a.toNat := by omega
        rcases ih bs with h | h
        · left; simp [charListLe, h1, h2, h]
        · right; simp [charListLe, h1, h2, h]
      · right; simp [charListLe, hgt]

theorem charListLe_trans : ∀ as bs cs : List Char,
    charListLe as bs = true → charListLe bs cs = true → charListLe as cs = true := by
  intro as
  induction as with
  | nil => intro bs cs _ _; rfl
  | cons a as ih =>
    intro bs cs h1 h2
    cases bs with
    | nil => simp [charListLe] at h1
    | cons b bs =>
      cases cs with
      | nil => simp [charListLe] at h2
      | cons c cs =>
        by_cases hab : a.toNat < b.toNat
        · by_cases hbc : b.toNat < c.toNat
          · have hac : a.toNat < c.toNat := by omega
            simp [charListLe, hac]
          · by_cases hcb : c.toNat < b.toNat
            · simp [charListLe, hbc, hcb] at h2
            · have hac : a.toNat < c.toNat := by omega
              simp [charListLe, hac]
        · by_cases hba : b.toNat < a.toNat
          · simp [charListLe, hab, hba] at h1
          · simp [charListLe, hab, hba] at h1
            by_cases hbc : b.toNat < c.toNat
            · have hac : a.toNat < c.toNat := by omega
              simp [charListLe, hac]
            · by_cases hcb : c.toNat < b.toNat
              · simp [charListLe, hbc, hcb] at h2
              · simp [charListLe, hbc, hcb] at h2
                have hac1 : ¬a.toNat < c.toNat := by omega
                have hac2 : ¬c.toNat < a.toNat := by omega
                simp [charListLe, hac1, hac2]
                exact ih bs cs h1 h2

theorem cveLe_total (a b : CveInfo) : cveLe a b = true ∨ cveLe b a = true :=
  charListLe_total a.id.data b.id.data

theorem cveLe_trans {a b c : CveInfo}
    (h1 : cveLe a b = true) (h2 : cveLe b c = true) : cveLe a c = true :=
  charListLe_trans a.id.data b.id.data c.id.data h1 h2

theorem insertCve_mem : ∀ {l : List CveInfo} {x z : CveInfo},
    z ∈ insertCve x l → z = x ∨ z ∈ l := by
  intro l
  induction l with
  | nil =>
    intro x z h
    simp [insertCve] at h
    exact Or.inl h
  | cons y ys ih =>
    intro x z h
    unfold insertCve at h
    by_cases hle : cveLe y x = true
    · rw [if_pos hle] at h
      rcases List.mem_cons.mp h with hz | h'
      · exact Or.inr (hz ▸ List.mem_cons_self y ys)
      · rcases ih h' with h'' | h''
        · exact Or.inl h''
        · exact Or.inr (List.mem_cons_of_mem y h'')
    · rw [if_neg hle] at h
      rcases List.mem_cons.mp h with hz | h'
      · exact Or.inl hz
      · exact Or.inr h'

theorem insertCve_pairwise (x : CveInfo) : ∀ {l : List CveInfo},
    List.Pairwise (fun a b => cveLe a b = true) l →
    List.Pairwise (fun a b => cveLe a b = true) (insertCve x l) := by
  intro l
  induction l with
  | nil =>
    intro _
    unfold insertCve
    exact List.pairwise_cons.mpr ⟨fun z hz => absurd hz (List.not_mem_nil z), List.Pairwise.nil⟩
  | cons y ys ih =>
    intro h
    rcases List.pairwise_cons.mp h with ⟨hy, hys⟩
    unfold insertCve
    by_cases hle : cveLe y x = true
    · rw [if_pos hle]
      refine List.pairwise_cons.mpr ⟨?_, ih hys⟩
      intro z hz
      rcases insertCve_mem hz with hz' | hz'
      · exact hz' ▸ hle
      · exact hy z hz'
    · rw [if_neg hle]
      have hxy : cveLe x y = true := by
        rcases cveLe_total x y with h' | h'
        · exact h'
        · exact absurd h' hle
      refine List.pairwise_cons.mpr ⟨?_, h⟩
      intro z hz
      rcases List.mem_cons.mp hz with hz' | hz'
      · exact hz' ▸ hxy
      · exact cveLe_trans hxy (hy z hz')

theorem sortFoldl_pairwise : ∀ (l acc : List CveInfo),
    List.Pairwise (fun a b => cveLe a b = true) acc →
    List.Pairwise (fun a b => cveLe a b = true)
      (l.foldl (fun acc x => insertCve x acc) acc) := by
  intro l
  induction l with
  | nil => intro acc h; exact h
  | cons a t ih =>
    intro acc h
    rw [List.foldl_cons]
    exact ih _ (insertCve_pairwise a h)

theorem sortByIdentifier_sorted (l : List CveInfo) :
    List.Pairwise (fun a b => cveLe a b = true) (sortByIdentifier l) :=
  sortFoldl_pairwise l [] List.Pairwise.nil

/-- C3 counterexample: in `chDupCve` the advisory CVE-X is listed once on the
current release and once on the latest release (each source list has at most
one entry), yet the aggregate advisory list returned by `getLatestRelease`
contains the identifier twice — the aggregation performs no deduplication. -/
theorem c3_counterexample :
    Except.map (fun r => r.securityIssues) (getLatestRelease "8.0.100" chDupCve)
      = .ok [{ id := "CVE-X", url := "https://x" },
             { id := "CVE-X", url := "https://x" }] ∧
    chDupCve.releases.all (fun r => (r.cveList.getD []).length ≤ 1) = true := by
  decide

/-- C3 (amended): the aggregate advisory list of every successful
`getLatestRelease` result is sorted ascending by identifier (under the
code-point comparator), but it is not de-duplicated: an identifier
contributed by several aggregated source lists appears several times. -/
theorem c3_sorted_by_identifier (v : String) (ch : ReleaseChannel) (out : SdkVersions)
    (h : getLatestRelease v ch = .ok out) :
    List.Pairwise (fun a b => cveLe a b = true) out.securityIssues := by
  unfold getLatestRelease at h
  rcases h1 : getReleaseForSdk v ch with e | cur <;> simp only [h1] at h
  · exact Except.noConfusion h
  · rcases h2 : getReleaseForSdk ch.latestSdk ch with e | lat <;> simp only [h2] at h
    · exact Except.noConfusion h
    · rcases hg : gapScanResult ch cur lat with e | res <;> simp only [hg] at h
      · exact Except.noConfusion h
      · injection h with h'
        subst h'
        exact sortByIdentifier_sorted res.2

/-- Witness for C3 (amended) on the `chUpToDate` channel. -/
theorem c3_sorted_by_identifier_witness :
    List.Pairwise (fun a b => cveLe a b = true) upToDateVersions.securityIssues :=
  c3_sorted_by_identifier "9.0.100" chUpToDate upToDateVersions (by decide)

/-- C8: `generateCommitMessage` classifies the transition as `major` exactly
when the parsed first dot-separated segment of the latest version exceeds the
current one's, else `minor` exactly when the second segments so compare, else
`patch`; the classification is embedded in the message line
`  update-type: version-update:semver-<classification>`, and the message is
the newline join of its lines.  In particular 1.0.0→2.0.0 is major,
1.2.0→1.3.0 is minor and 1.2.3→1.2.4 is patch. -/
theorem c8_update_classifier (c l : String) :
    ("  update-type: version-update:semver-" ++ updateKind c l) ∈ commitMessageLines c l ∧
    (updateKind c l = "major" ↔
      jsGt (parseAt (jsSplitDots l) 0) (parseAt (jsSplitDots c) 0) = true) ∧
    (updateKind c l = "minor" ↔
      (jsGt (parseAt (jsSplitDots l) 0) (parseAt (jsSplitDots c) 0) = false ∧
       jsGt (parseAt (jsSplitDots l) 1) (parseAt (jsSplitDots c) 1) = true)) ∧
    (updateKind c l = "patch" ↔
      (jsGt (parseAt (jsSplitDots l) 0) (parseAt (jsSplitDots c) 0) = false ∧
       jsGt (parseAt (jsSplitDots l) 1) (parseAt (jsSplitDots c) 1) = false)) ∧
    generateCommitMessage c l = joinWith "\n" (commitMessageLines c l) ∧
    updateKind "1.0.0" "2.0.0" = "major" ∧
    updateKind "1.2.0" "1.3.0" = "minor" ∧
    updateKind "1.2.3" "1.2.4" = "patch" := by
  refine ⟨?_, ?_, ?_, ?_, rfl, by decide, by decide, by decide⟩
  · unfold commitMessageLines
    simp
  · unfold updateKind
    cases hA : jsGt (parseAt (jsSplitDots l) 0) (parseAt (jsSplitDots c) 0) <;>
      cases hB : jsGt (parseAt (jsSplitDots l) 1) (parseAt (jsSplitDots c) 1) <;>
      simp [hA, hB]
  · unfold updateKind
    cases hA : jsGt (parseAt (jsSplitDots l) 0) (parseAt (jsSplitDots c) 0) <;>
      cases hB : jsGt (parseAt (jsSplitDots l) 1) (parseAt (jsSplitDots c) 1) <;>
      simp [hA, hB]
  · unfold updateKind
    cases hA : jsGt (parseAt (jsSplitDots l) 0) (parseAt (jsSplitDots c) 0) <;>
      cases hB : jsGt (parseAt (jsSplitDots l) 1) (parseAt (jsSplitDots c) 1) <;>
      simp [hA, hB]

/-! Orchestration lemmas and claims. -/

theorem applySdkUpdate_branchExists (opts : UpdateOptions) (env : GitEnv)
    (versions : SdkVersions) (hbe : env.remoteBranchExists = true) :
    ∃ effs opts2, applySdkUpdate opts env versions = (effs, none, opts2) ∧
      effs.all (fun e => !isMutationEffect e) = true := by
  unfold applySdkUpdate
  simp only [hbe, if_true]
  refine ⟨_, _, rfl, ?_⟩
  split_ifs <;> simp [List.all_append, isMutationEffect]

/-- C6: when the remote branch with the derived name already exists, the run
performs no checkout, no commit, no push and no proposed-change creation, and
terminates successfully reporting no update applied, even though the current
and latest SDK versions may differ. -/
theorem c6_branch_exists_no_mutation (sdkV : String) (ch : ReleaseChannel)
    (opts : UpdateOptions) (env : GitEnv) (u : SdkVersions)
    (hsdk : sdkV ≠ "")
    (hchan : opts.channel ≠ "" ∨ 2 ≤ (jsSplitDots sdkV).length)
    (hu : getLatestRelease sdkV ch = .ok u)
    (hbe : env.remoteBranchExists = true) :
    ∃ r effs, tryUpdateSdk (some sdkV) ch opts env = .ok (r, effs) ∧
      r.updated = false ∧ effs.all (fun e => !isMutationEffect e) = true := by
  unfold tryUpdateSdk
  simp only [Option.getD_some]
  rw [if_neg hsdk]
  have hcc : ∃ opts1 : UpdateOptions,
      (if opts.channel = "" then
        if (jsSplitDots sdkV).length < 2 then
          (.error (".NET SDK version '" ++ sdkV ++ "' is not valid.") :
            Except String UpdateOptions)
        else
          .ok { opts with channel :=
                  (jsSplitDots sdkV).getD 0 "" ++ "." ++ (jsSplitDots sdkV).getD 1 "" }
      else .ok opts) = .ok opts1 := by
    by_cases hch : opts.channel = ""
    · rcases hchan with hne | hlen
      · exact absurd hch hne
      · rw [if_pos hch, if_neg (by omega)]
        exact ⟨_, rfl⟩
    · rw [if_neg hch]
      exact ⟨_, rfl⟩
  rcases hcc with ⟨opts1, hcc⟩
  simp only [hcc, hu]
  by_cases heq : u.current.sdkVersion = u.latest.sdkVersion
  · rw [if_neg (by simp [heq])]
    exact ⟨_, _, rfl, rfl, rfl⟩
  · rw [if_pos heq]
    rcases applySdkUpdate_branchExists opts1 env u hbe with ⟨effs, opts2, happ, hall⟩
    rw [happ]
    exact ⟨_, _, rfl, rfl, hall⟩

/-- Witness for C6: an update is available on `chDeltaOne` but the remote
branch already exists, so the run reports no update and performs no
checkout/commit/push/proposed change. -/
theorem c6_branch_exists_no_mutation_witness :
    ∃ r effs, tryUpdateSdk (some "8.0.101") chDeltaOne {} envBranchExists = .ok (r, effs) ∧
      r.updated = false ∧ effs.all (fun e => !isMutationEffect e) = true :=
  c6_branch_exists_no_mutation "8.0.101" chDeltaOne {} envBranchExists deltaOneVersions
    (by decide) (Or.inr (by decide)) (by decide) rfl

/-- C7: when the resolved current SDK version equals the resolved latest SDK
version, `tryUpdateSdk` terminates successfully with `updated = false` and
`version` equal to the current SDK version, and performs no external effect
at all: no manifest write, no branch, no proposed change. -/
theorem c7_up_to_date (sdkV : String) (ch : ReleaseChannel)
    (opts : UpdateOptions) (env : GitEnv) (u : SdkVersions)
    (hsdk : sdkV ≠ "")
    (hchan : opts.channel ≠ "" ∨ 2 ≤ (jsSplitDots sdkV).length)
    (hu : getLatestRelease sdkV ch = .ok u)
    (heq : u.current.sdkVersion = u.latest.sdkVersion) :
    tryUpdateSdk (some sdkV) ch opts env =
      .ok ({ pullRequestNumber := 0, pullRequestUrl := "", updated := false,
             security := false, version := u.current.sdkVersion }, []) := by
  unfold tryUpdateSdk
  simp only [Option.getD_some]
  rw [if_neg hsdk]
  have hcc : ∃ opts1 : UpdateOptions,
      (if opts.channel = "" then
        if (jsSplitDots sdkV).length < 2 then
          (.error (".NET SDK version '" ++ sdkV ++ "' is not valid.") :
            Except String UpdateOptions)
        else
          .ok { opts with channel :=
                  (jsSplitDots sdkV).getD 0 "" ++ "." ++ (jsSplitDots sdkV).getD 1 "" }
      else .ok opts) = .ok opts1 := by
    by_cases hch : opts.channel = ""
    · rcases hchan with hne | hlen
      · exact absurd hch hne
      · rw [if_pos hch, if_neg (by omega)]
        exact ⟨_, rfl⟩
    · rw [if_neg hch]
      exact ⟨_, rfl⟩
  rcases hcc with ⟨opts1, hcc⟩
  simp only [hcc, hu]
  rw [if_neg (by simp [heq])]

/-- Witness for C7 on the up-to-date channel. -/
theorem c7_up_to_date_witness :
    tryUpdateSdk (some "9.0.100") chUpToDate {} envFresh =
      .ok ({ pullRequestNumber := 0, pullRequestUrl := "", updated := false,
             security := false, version := upToDateVersions.current.sdkVersion }, []) :=
  c7_up_to_date "9.0.100" chUpToDate {} envFresh upToDateVersions
    (by decide) (Or.inr (by decide)) (by decide) (by decide)

/-- C9 (code behaviour): the `UpdateResult` built by `tryUpdateSdk` never
carries a branch name — the object literal at DotNetSdkUpdater.ts:144-150
sets no `branchName` and nothing later assigns it — so the `branch-name`
output emitted by `main.run` is always the undefined value, never the branch
used for the update. -/
theorem c9_branch_name_not_reported (gj : Option String) (ch : ReleaseChannel)
    (opts : UpdateOptions) (env : GitEnv) (r : UpdateResult) (effs : List RunEffect)
    (h : tryUpdateSdk gj ch opts env = .ok (r, effs)) :
    r.branchName = none ∧ ("branch-name", (none : Option String)) ∈ runOutputs r := by
  unfold tryUpdateSdk at h
  dsimp only at h
  split at h
  · exact Except.noConfusion h
  · split at h
    · exact Except.noConfusion h
    · split at h
      · exact Except.noConfusion h
      · split at h
        · split at h
          · injection h with h1
            injection h1 with hr he
            subst hr
            exact ⟨rfl, List.mem_cons_self _ _⟩
          · injection h with h1
            injection h1 with hr he
            subst hr
            exact ⟨rfl, List.mem_cons_self _ _⟩
        · injection h with h1
          injection h1 with hr he
          subst hr
          exact ⟨rfl, List.mem_cons_self _ _⟩

/-- Witness for C9: a run that does apply an update (the proposed change is
opened from the derived branch) still reports no branch name. -/
theorem c9_branch_name_not_reported_witness :
    updatedRunResult.branchName = none ∧
    ("branch-name", (none : Option String)) ∈ runOutputs updatedRunResult :=
  c9_branch_name_not_reported (some "8.0.101") chDeltaOne {} envFresh
    updatedRunResult updatedRunEffects (by decide)

end UpdateSdk
